import Mathlib

/-!
Shallow embedding of the universal-text-extractor core
(src/utils/file_handlers.py, src/utils/image_processing.py,
src/utils/ocr_utils.py).

External libraries (PyMuPDF, PyPDF2, pdf2image, PIL's file decoding,
Tesseract, EasyOCR, pandas, odfpy, the csv reader and the mimetypes
database) are modelled as oracles carried in environment structures:
an oracle value of type `Except String α` stands for "the library call
returned `α`, or raised an exception with message carried in `.error`".
Python mutable accumulation (`extracted_text += ...`, `logs.append`)
becomes explicit state threading; early `return` becomes `Sum`-valued
stage functions (`.inl` = returned, `.inr` = fell through).
-/

namespace UTE

/-- Python `not s.strip()`: the string is empty or whitespace-only. -/
def isWS (s : String) : Bool := s.toList.all (fun c => c.isWhitespace)

/-- Does `pat` occur at the head of `s`? -/
def headMatch : List Char → List Char → Bool
  | [], _ => true
  | _ :: _, [] => false
  | c :: cs, d :: ds => c = d && headMatch cs ds

/-- Does `pat` occur anywhere in `s`? -/
def subMatch (pat : List Char) : List Char → Bool
  | [] => headMatch pat []
  | d :: ds => headMatch pat (d :: ds) || subMatch pat ds

/-- Python `pat in s` (substring containment). -/
def containsSub (s pat : String) : Bool := subMatch pat.toList s.toList

/-- Python `s.startswith(pat)`. -/
def startsWithS (s pat : String) : Bool := headMatch pat.toList s.toList

/-- Split a character list at every occurrence of `c` (like Python
`str.split(c)`). -/
def splitOnChar (c : Char) : List Char → List (List Char)
  | [] => [[]]
  | d :: ds =>
    match splitOnChar c ds with
    | [] => [[]]
    | g :: gs => if d = c then [] :: g :: gs else (d :: g) :: gs

/-- Python `s.lower()`. -/
def lowerStr (s : String) : String := String.mk (s.toList.map Char.toLower)

/-- Python `s.upper()`. -/
def upperStr (s : String) : String := String.mk (s.toList.map Char.toUpper)

/-! ## Format classifier (`detect_file_type`, file_handlers.py lines 94-145) -/

/-- Model of the `SUPPORTED_FILE_TYPES` dictionary, file_handlers.py lines 94-102. -/
def SUPPORTED_FILE_TYPES : List (String × List String) :=
  [("Documents", ["pdf", "doc", "docx", "rtf", "odt", "txt"]),
   ("Images", ["jpg", "jpeg", "png", "tiff", "tif", "bmp", "gif", "webp", "heic", "heif"]),
   ("Presentations", ["ppt", "pptx", "odp"]),
   ("Spreadsheets", ["xls", "xlsx", "ods", "csv"]),
   ("Web", ["html", "htm", "xml"]),
   ("Email", ["eml", "msg"]),
   ("Ebooks", ["epub"])]

/-- Model of `SUPPORTED_IMAGE_FORMATS`, file_handlers.py line 105. -/
def SUPPORTED_IMAGE_FORMATS : List String :=
  ["jpg", "jpeg", "png", "tiff", "tif", "bmp", "gif", "webp", "heic", "heif"]

/-- Final path component (POSIX), as used by `os.path.splitext`. -/
def fileBasename (p : String) : String :=
  String.mk ((splitOnChar '/' p.toList).getLastD [])

/-- Index of the last `'.'` in a character list, if any. -/
def lastDotIdx (cs : List Char) : Option Nat :=
  cs.enum.foldl (fun acc q => if q.2 = '.' then some q.1 else acc) none

/-- Model of `os.path.splitext` extension part (with its leading dot) of a basename:
nonempty only when some non-dot character precedes the last dot. -/
def splitextExtChars (cs : List Char) : List Char :=
  let lead := (cs.takeWhile (fun c => c = '.')).length
  match lastDotIdx cs with
  | none => []
  | some d => if lead < d then cs.drop d else []

/-- Model of `ext.lower().lstrip('.')` applied to the `splitext` extension
(file_handlers.py lines 118-119). -/
def normExt (p : String) : String :=
  let ext := splitextExtChars (fileBasename p).toList
  String.mk ((ext.map Char.toLower).dropWhile (fun c => c = '.'))

/-- Whether the extension-table loop of lines 122-124 finds `ext`. -/
def extSupported (ext : String) : Bool :=
  SUPPORTED_FILE_TYPES.any (fun c => c.2.contains ext)

/-- Model of `detect_file_type` (file_handlers.py lines 107-145).  The result of
`mimetypes.guess_type` for this path is passed in as the oracle `mime`
(`none` = Python `None`; the code's `if content_type:` also treats an
empty string as unresolved). -/
def detect_file_type (mime : Option String) (file_path : String) : String :=
  let ext := normExt file_path
  if extSupported ext then ext
  else
    match mime with
    | none => "unknown"
    | some ct =>
      if ct = "" then "unknown"
      else if startsWithS ct ("image/") then "image"
      else if startsWithS ct ("text/") then "text"
      else if containsSub ct ("pdf") then "pdf"
      else if containsSub ct ("msword")
           || containsSub ct ("vnd.openxmlformats-officedocument.wordprocessingml") then "doc"
      else if containsSub ct ("vnd.ms-powerpoint")
           || containsSub ct ("vnd.openxmlformats-officedocument.presentationml") then "ppt"
      else if containsSub ct ("vnd.ms-excel")
           || containsSub ct ("vnd.openxmlformats-officedocument.spreadsheetml") then "xls"
      else "unknown"

/-! ## Image model and preprocessor (`preprocess_image`, image_processing.py lines 31-135)

Pixels are 8-bit values modelled as `Nat` (every operation below is
range-preserving on 0..255 inputs).  The contrast factor, a Python
float, is modelled as `ℚ`; the factors exercised by the spec (1.5, 2.0)
are exactly representable in both systems, so the arithmetic agrees. -/

/-- An RGB pixel. -/
abbrev RGBPx := Nat × Nat × Nat

/-- A PIL image: either RGB mode or grayscale (`L`) mode, as rows of pixels. -/
inductive PImage where
  | rgb (px : List (List RGBPx))
  | gray (px : List (List Nat))
deriving DecidableEq

/-- Pillow's RGB→L luminance: `(19595 r + 38470 g + 7471 b + 0x8000) >> 16`. -/
def lumin (c : RGBPx) : Nat := (19595 * c.1 + 38470 * c.2.1 + 7471 * c.2.2 + 32768) / 65536

/-- Model of `img.convert('RGB')` (image_processing.py lines 86-87): L mode replicates
the gray value into the three channels. -/
def convertRGB : PImage → List (List RGBPx)
  | .rgb px => px
  | .gray px => px.map (fun r => r.map (fun v => (v, v, v)))

/-- Model of `ImageOps.grayscale` on an RGB image. -/
def grayscaleOf (px : List (List RGBPx)) : List (List Nat) :=
  px.map (fun r => r.map lumin)

/-- Concatenate pixel rows. -/
def flatPx (l : List (List Nat)) : List Nat := l.foldr (fun r acc => r ++ acc) []

/-- The `L`-converted pixel values of an image (used by `ImageStat`). -/
def lumaVals : PImage → List Nat
  | .gray px => flatPx px
  | .rgb px => flatPx (grayscaleOf px)

/-- Model of `int(ImageStat.Stat(image.convert("L")).mean[0] + 0.5)` from
`ImageEnhance.Contrast.__init__`; an image with no pixels is taken to
have mean 0. -/
def meanL (img : PImage) : Nat :=
  let l := lumaVals img
  if l.length = 0 then 0 else (2 * l.sum + l.length) / (2 * l.length)

/-- One pixel of `Image.blend(degenerate_mean, image, a)`:
`mean + a*(p - mean)`, truncated toward zero and clipped to 0..255
(Pillow `Blend.c`).  The value `mean + a*(p - mean)` is computed as the
exact fraction `num/den` with `den = a.den > 0`; for a positive value
truncation equals floor, computed by integer division. -/
def blendPx (a : ℚ) (mean p : Nat) : Nat :=
  let num : Int := (mean : Int) * (a.den : Int) + a.num * ((p : Int) - (mean : Int))
  let den : Int := (a.den : Int)
  if num ≤ 0 then 0 else if 255 * den ≤ num then 255 else (num / den).toNat

/-- Model of `ImageEnhance.Contrast(img).enhance(a)`. -/
def contrastEnhance (a : ℚ) (img : PImage) : PImage :=
  let m := meanL img
  match img with
  | .gray px => .gray (px.map (fun r => r.map (blendPx a m)))
  | .rgb px => .rgb (px.map (fun r => r.map
      (fun c => (blendPx a m c.1, blendPx a m c.2.1, blendPx a m c.2.2))))

/-- Model of the lambda `255 if p > threshold_value else 0` (image_processing.py line 103). -/
def thresholdPx (t v : Nat) : Nat := if v > t then 255 else 0

/-- Model of `img.point(...)` with the threshold lambda (applied per channel on RGB). -/
def applyThreshold (t : Nat) : PImage → PImage
  | .gray px => .gray (px.map (fun r => r.map (thresholdPx t)))
  | .rgb px => .rgb (px.map (fun r => r.map
      (fun c => (thresholdPx t c.1, thresholdPx t c.2.1, thresholdPx t c.2.2))))

/-- Clamp an `Int` index into `0..n-1` (edge replication for the filter border). -/
def clampIdx (n : Nat) (i : Int) : Nat := (max 0 (min i ((n : Int) - 1))).toNat

/-- Pixel lookup with clamped (edge-replicated) coordinates; 0 outside an
empty image/row. -/
def grayGet (px : List (List Nat)) (i j : Int) : Nat :=
  let row := px.getD (clampIdx px.length i) []
  row.getD (clampIdx row.length j) 0

/-- The 3×3 neighborhood of position `(i, j)`. -/
def nbhd9 (px : List (List Nat)) (i j : Nat) : List Nat :=
  [grayGet px ((i : Int) - 1) ((j : Int) - 1), grayGet px ((i : Int) - 1) (j : Int),
   grayGet px ((i : Int) - 1) ((j : Int) + 1),
   grayGet px (i : Int) ((j : Int) - 1), grayGet px (i : Int) (j : Int),
   grayGet px (i : Int) ((j : Int) + 1),
   grayGet px ((i : Int) + 1) ((j : Int) - 1), grayGet px ((i : Int) + 1) (j : Int),
   grayGet px ((i : Int) + 1) ((j : Int) + 1)]

/-- Insert into a sorted list. -/
def insertSorted (x : Nat) : List Nat → List Nat
  | [] => [x]
  | y :: ys => if x ≤ y then x :: y :: ys else y :: insertSorted x ys

/-- Insertion sort. -/
def isort : List Nat → List Nat
  | [] => []
  | x :: xs => insertSorted x (isort xs)

/-- Model of `MedianFilter(size=3)` picks the middle (rank 4 of 9) neighborhood value. -/
def median9 (l : List Nat) : Nat := (isort l).getD 4 0

/-- One output row of the median filter (`j` = current column). -/
def medianRow (px : List (List Nat)) (i : Nat) : List Nat → Nat → List Nat
  | [], _ => []
  | _ :: rest, j => median9 (nbhd9 px i j) :: medianRow px i rest (j + 1)

/-- Output rows of the median filter (`i` = current row). -/
def medianRows (px : List (List Nat)) : List (List Nat) → Nat → List (List Nat)
  | [], _ => []
  | row :: rest, i => medianRow px i row 0 :: medianRows px rest (i + 1)

/-- Model of `img.filter(ImageFilter.MedianFilter(size=3))` on an L image. -/
def medianFilterGray (px : List (List Nat)) : List (List Nat) := medianRows px px 0

/-- Zip three channel planes back into RGB rows. -/
def zipRGBRow : List Nat → List Nat → List Nat → List RGBPx
  | r :: rs, g :: gs, b :: bs => (r, g, b) :: zipRGBRow rs gs bs
  | _, _, _ => []

/-- Zip three channel plane matrices back into an RGB matrix. -/
def zipRGB : List (List Nat) → List (List Nat) → List (List Nat) → List (List RGBPx)
  | r :: rs, g :: gs, b :: bs => zipRGBRow r g b :: zipRGB rs gs bs
  | _, _, _ => []

/-- The median filter on either mode (channel-wise on RGB). -/
def medianFilter : PImage → PImage
  | .gray px => .gray (medianFilterGray px)
  | .rgb px =>
      let r := px.map (fun row => row.map (fun c => c.1))
      let g := px.map (fun row => row.map (fun c => c.2.1))
      let b := px.map (fun row => row.map (fun c => c.2.2))
      .rgb (zipRGB (medianFilterGray r) (medianFilterGray g) (medianFilterGray b))

/-- Model of `PreprocessParams` (spec §3): the five recognized options.  The code's
extra `use_opencv` / `save_temp` lookups default to false when absent and
are not part of the struct, so those blocks are no-ops here. -/
structure PreprocessParams where
  enhance : Bool
  grayscale : Bool
  contrast : ℚ
  threshold : Option Nat
  noise_reduction : Bool
deriving DecidableEq

/-- The defaults substituted when `params is None`
(image_processing.py lines 52-59). -/
def defaultParams : PreprocessParams :=
  { enhance := true, grayscale := true, contrast := ⟨3, 2, by decide, by decide⟩,
    threshold := some 130, noise_reduction := true }

/-- Python truthiness of `params.get("threshold", None)`:
`None` and `0` are falsy (image_processing.py line 100). -/
def truthyThresh : Option Nat → Bool
  | none => false
  | some n => n ≠ 0

/-- The enhance branch (image_processing.py lines 84-108): color normalize →
grayscale → contrast → threshold (grayscale mode only) → median denoise. -/
def enhanceChain (params : PreprocessParams) (img0 : PImage) : PImage :=
  let imgRGB := convertRGB img0
  let img1 : PImage := if params.grayscale then .gray (grayscaleOf imgRGB) else .rgb imgRGB
  let img2 := if params.contrast ≠ 1 then contrastEnhance params.contrast img1 else img1
  let img3 :=
    if params.grayscale ∧ truthyThresh params.threshold then
      applyThreshold (params.threshold.getD 130) img2
    else img2
  if params.noise_reduction then medianFilter img3 else img3

/-- An argument acceptable to `preprocess_image` / `perform_ocr`: a file
path or an in-memory PIL image. -/
inductive OcrInput where
  | path (p : String)
  | image (img : PImage)
deriving DecidableEq

/-- The runtime state of PIL for one call: availability flag plus an
oracle for `Image.open` on a path (`.error` = the open raised). -/
structure PilEnv where
  has_pil : Bool
  openImage : String → Except String PImage

/-- Model of `preprocess_image` (image_processing.py lines 31-135).  Returns the
input unchanged when PIL is missing or the source fails to open; `None`
params select `defaultParams`; the enhance branch runs only when
`params.enhance` is true (default true). -/
def preprocess_image (env : PilEnv) (input : OcrInput)
    (params0 : Option PreprocessParams) : OcrInput :=
  if ¬env.has_pil then input
  else
    let params := params0.getD defaultParams
    let imgOpt : Option PImage :=
      match input with
      | .path p =>
        match env.openImage p with
        | .ok im => some im
        | .error _ => none
      | .image im => some im
    match imgOpt with
    | none => input
    | some img0 =>
      if params.enhance then .image (enhanceChain params img0) else .image img0

/-! ## OCR engine adapter (`perform_ocr`, ocr_utils.py lines 112-208)

Backend behavior is oracle-valued: `.error e` means the backend call
raised an exception with message `e`, `.ok t` means it returned text `t`. -/

/-- The runtime OCR capabilities and backend behaviors for one call. -/
structure OcrEnv where
  has_pytesseract : Bool
  has_easyocr : Bool
  has_pil : Bool
  /-- Model of `pytesseract.image_to_string` with no extra config. -/
  tesseract : OcrInput → String → Except String String
  /-- Model of `image_to_string` with the handwriting psm-6/whitelist config. -/
  tesseractHw : OcrInput → String → Except String String
  /-- Model of `image_to_string` with the `--psm 8` retry config. -/
  tesseractPsm8 : OcrInput → String → Except String String
  /-- Model of `initialize_easyocr(language)` returned a reader (it catches its own
  exceptions and yields `None` on failure). -/
  easyocrInitOk : String → Bool
  /-- Model of `reader.readtext` (after the PIL-image temp-file save, when needed):
  the recognized text snippets, or a raised exception. -/
  easyocrRead : OcrInput → String → Except String (List String)

/-- Model of `is_ocr_available()` (ocr_utils.py lines 32-39). -/
def is_ocr_available (env : OcrEnv) : Bool := env.has_pytesseract || env.has_easyocr

/-- The Tesseract block of `perform_ocr` (ocr_utils.py lines 131-176):
`.inl t` = early `return t`; `.inr c` = fall through to EasyOCR with
`ocr_text = c`. -/
def tesseractStage (env : OcrEnv) (image : OcrInput) (language : String)
    (handwriting_mode : Bool) : Sum String String :=
  if ¬env.has_pytesseract then .inr ""
  else
    match (if handwriting_mode then env.tesseractHw image language
           else env.tesseract image language) with
    | .error _ => .inr ""
    | .ok t =>
      if ¬isWS t then .inl t
      else if handwriting_mode then
        match env.tesseractPsm8 image language with
        | .error _ => .inr t
        | .ok t2 => if ¬isWS t2 then .inl t2 else .inr t2
      else .inr t

/-- The EasyOCR block of `perform_ocr` (ocr_utils.py lines 179-206):
`.inl m` = early return of the invalid-format marker; `.inr t` = the
value of `ocr_text` reaching the final line.  On a raised exception the
carried `ocr_text` is replaced by a failure marker only when it is the
empty string (`if not ocr_text`). -/
def easyocrStage (env : OcrEnv) (image : OcrInput) (language : String)
    (carried : String) : Sum String String :=
  if ¬env.has_easyocr then .inr carried
  else if ¬env.easyocrInitOk language then .inr carried
  else
    match image with
    | .path _ =>
      match env.easyocrRead image language with
      | .ok texts => .inr (String.intercalate ("\n") texts)
      | .error e =>
        .inr (if carried = "" then "[OCR processing failed: " ++ e ++ "]" else carried)
    | .image _ =>
      if env.has_pil then
        match env.easyocrRead image language with
        | .ok texts => .inr (String.intercalate ("\n") texts)
        | .error e =>
          .inr (if carried = "" then "[OCR processing failed: " ++ e ++ "]" else carried)
      else .inl "[Could not process image for OCR: Invalid image format]"

/-- Model of `perform_ocr` (ocr_utils.py lines 112-208). -/
def perform_ocr (env : OcrEnv) (image : OcrInput) (language : String)
    (handwriting_mode : Bool) : String :=
  if ¬is_ocr_available env then
    "[OCR is not available. No text could be extracted from this image.]"
  else
    match tesseractStage env image language handwriting_mode with
    | .inl t => t
    | .inr carried =>
      match easyocrStage env image language carried with
      | .inl m => m
      | .inr t => if ¬isWS t then t else "[No text was detected in this image.]"

/-! ## PDF extractor (`extract_text_from_pdf`, file_handlers.py lines 254-389) -/

/-- Python `preprocess_params and preprocess_params.get("enhance", False)`
(file_handlers.py lines 183, 293, 364). -/
def ppWantsEnhance : Option PreprocessParams → Bool
  | none => false
  | some q => q.enhance

/-- The f-string page header `"\n--- Page {i+1} ---\n"` (0-based `i`). -/
def pageMarker (i : Nat) : String := "\n--- Page " ++ toString (i + 1) ++ " ---\n"

/-- Behavior of one page-iterating PDF library run on this file:
either the full list of per-page texts, or an exception raised after the
listed pages had already been appended. -/
inductive LibRun where
  | ok (pages : List String)
  | raiseAfter (pages : List String) (err : String)
deriving DecidableEq

/-- The PDF-library capabilities and behaviors for one file. -/
structure PdfLibs where
  has_pymupdf : Bool
  /-- Model of `fitz.open` + page iteration (`page.get_text()` per page). -/
  mupdf : LibRun
  has_pypdf2 : Bool
  /-- Model of `PyPDF2.PdfReader` + `page.extract_text()` per page. -/
  pypdf2 : LibRun
  /-- Model of `from pdf2image import convert_from_path` succeeded. -/
  has_pdf2image : Bool
  /-- Model of `convert_from_path`: the number of rasterized pages, or a raise. -/
  pdf2image : Except String Nat
  /-- Temp png path used for the rasterization of PyMuPDF page `i`. -/
  muTmp : Nat → String
  /-- Temp png path used for pdf2image page `i`. -/
  p2iTmp : Nat → String

/-- Per-page body of the PyMuPDF loop (file_handlers.py lines 278-304):
a blank page with OCR enabled is rasterized to a temp file, optionally
preprocessed, and recognized; result = (page text, ocr flag, logs). -/
def muPageProc (ocr : OcrEnv) (pil : PilEnv) (libs : PdfLibs) (use_ocr : Bool)
    (language : String) (pp : Option PreprocessParams) (i : Nat) (pt : String) :
    String × Bool × List String :=
  if isWS pt && use_ocr then
    let tmp := OcrInput.path (libs.muTmp i)
    let input := if ppWantsEnhance pp then preprocess_image pil tmp pp else tmp
    (perform_ocr ocr input language false, true,
     ["Page " ++ toString (i + 1) ++ " appears to be scanned/image-based. Attempting OCR."])
  else (pt, false, [])

/-- Model of `extracted_text += f"\n--- Page {n} ---\n{page_text}\n"` over a page list,
accumulating the OCR flag and logs; `i` is the index of the first page. -/
def foldPages (proc : Nat → String → String × Bool × List String) :
    List String → Nat → String × Bool × List String
  | [], _ => ("", false, [])
  | pt :: rest, i =>
    let r := proc i pt
    let rec' := foldPages proc rest (i + 1)
    (pageMarker i ++ r.1 ++ "\n" ++ rec'.1, r.2.1 || rec'.2.1, r.2.2 ++ rec'.2.2)

/-- The PyMuPDF stage (file_handlers.py lines 271-317): `.inl` = the early
`return` of line 312; `.inr` = fall through carrying (text, ocr, logs). -/
def muStage (ocr : OcrEnv) (pil : PilEnv) (libs : PdfLibs) (use_ocr : Bool)
    (language : String) (pp : Option PreprocessParams) :
    Sum (String × Bool × List String) (String × Bool × List String) :=
  if ¬libs.has_pymupdf then
    .inr ("", false, ["PyMuPDF not available, trying alternative methods"])
  else
    match libs.mupdf with
    | .ok pages =>
      let r := foldPages (muPageProc ocr pil libs use_ocr language pp) pages 0
      let logs := "Attempting to extract text using PyMuPDF" :: r.2.2
      if isWS r.1 then .inr (r.1, r.2.1, logs ++ ["No text extracted with PyMuPDF"])
      else .inl (r.1, r.2.1, logs ++ ["Successfully extracted text from PDF using PyMuPDF"])
    | .raiseAfter pages e =>
      let r := foldPages (muPageProc ocr pil libs use_ocr language pp) pages 0
      .inr (r.1, r.2.1,
        ("Attempting to extract text using PyMuPDF" :: r.2.2)
          ++ ["PyMuPDF extraction failed: " ++ e])

/-- The PyPDF2 stage (file_handlers.py lines 319-343), entered only when
PyPDF2 is present and `extracted_text` is the empty string (Python
`not extracted_text`); it never performs OCR. -/
def pypdf2Stage (libs : PdfLibs) (carry : String × Bool × List String) :
    Sum (String × Bool × List String) (String × Bool × List String) :=
  if libs.has_pypdf2 ∧ carry.1 = "" then
    let logs0 := carry.2.2 ++ ["Attempting to extract text using PyPDF2"]
    match libs.pypdf2 with
    | .ok pages =>
      let r := foldPages (fun _ pt => (pt, false, [])) pages 0
      if isWS r.1 then .inr (r.1, carry.2.1, logs0 ++ ["No text extracted with PyPDF2"])
      else .inl (r.1, carry.2.1, logs0 ++ ["Successfully extracted text from PDF using PyPDF2"])
    | .raiseAfter pages e =>
      let r := foldPages (fun _ pt => (pt, false, [])) pages 0
      .inr (r.1, carry.2.1, logs0 ++ ["PyPDF2 extraction failed: " ++ e])
  else .inr carry

/-- The pdf2image page loop (file_handlers.py lines 357-375): every
rasterized page is OCR'd from its temp path and sets `ocr_used`. -/
def fullOcrPages (ocr : OcrEnv) (pil : PilEnv) (libs : PdfLibs) (language : String)
    (pp : Option PreprocessParams) : Nat → Nat → String × Bool → String × Bool
  | 0, _, acc => acc
  | m + 1, i, acc =>
    let tmp := OcrInput.path (libs.p2iTmp i)
    let input := if ppWantsEnhance pp then preprocess_image pil tmp pp else tmp
    let pt := perform_ocr ocr input language false
    fullOcrPages ocr pil libs language pp m (i + 1)
      (acc.1 ++ pageMarker i ++ pt ++ "\n", true)

/-- The full-document OCR stage (file_handlers.py lines 345-382), entered
only when the accumulated text is whitespace-only and OCR is enabled.
`extracted_text` is reset to `""` only after the pdf2image import
succeeds, and again survives as `""` when `convert_from_path` raises. -/
def fullOcrStage (ocr : OcrEnv) (pil : PilEnv) (libs : PdfLibs) (use_ocr : Bool)
    (language : String) (pp : Option PreprocessParams)
    (carry : String × Bool × List String) : String × Bool × List String :=
  if isWS carry.1 && use_ocr then
    let logs0 := carry.2.2 ++ ["PDF appears to be scanned/image-based. Attempting full document OCR."]
    if ¬libs.has_pdf2image then
      (carry.1, carry.2.1, logs0 ++ ["pdf2image not available for PDF to image conversion"])
    else
      match libs.pdf2image with
      | .error e => ("", carry.2.1, logs0 ++ ["Full document OCR failed: " ++ e])
      | .ok n =>
        let r := fullOcrPages ocr pil libs language pp n 0 ("", carry.2.1)
        (r.1, r.2, logs0 ++ ["Completed full document OCR using pdf2image and OCR"])
  else carry

/-- Final placeholder fallback (file_handlers.py lines 384-389). -/
def finalizePdf (carry : String × Bool × List String) : String × Bool × List String :=
  if isWS carry.1 then
    ("[No text could be extracted from this PDF. It may be scanned, image-based, or protected.]",
     carry.2.1, carry.2.2 ++ ["Could not extract any text from the PDF"])
  else carry

/-- Model of `extract_text_from_pdf` (file_handlers.py lines 254-389). -/
def extract_text_from_pdf (ocr : OcrEnv) (pil : PilEnv) (libs : PdfLibs)
    (use_ocr : Bool) (language : String) (pp : Option PreprocessParams) :
    String × Bool × List String :=
  match muStage ocr pil libs use_ocr language pp with
  | .inl result => result
  | .inr c1 =>
    match pypdf2Stage libs c1 with
    | .inl result => result
    | .inr c2 => finalizePdf (fullOcrStage ocr pil libs use_ocr language pp c2)

/-! ## Spreadsheet extractor (`extract_text_from_spreadsheet`, file_handlers.py lines 519-620) -/

/-- Library availability and oracle behaviors for the spreadsheet
extractor on one file. -/
structure SheetEnv where
  /-- Model of `open` + `csv.reader` + `list(reader)`: the parsed rows, or a raise. -/
  csv : Except String (List (List String))
  has_pandas : Bool
  /-- The pandas branch: the joined per-sheet text and the sheet count
  (for its success log line), or a raise. -/
  pandas : Except String (String × Nat)
  has_odf : Bool
  /-- The odfpy branch: the joined per-table text and the table count,
  or a raise. -/
  odf : Except String (String × Nat)

/-- The CSV rows formatted as pipe-delimited lines
(file_handlers.py lines 542-543). -/
def csvText (rows : List (List String)) : String :=
  rows.foldl (fun acc row => acc ++ String.intercalate (" | ") row ++ "\n") ""

/-- Model of `extract_text_from_spreadsheet` (file_handlers.py lines 519-620). -/
def extract_text_from_spreadsheet (env : SheetEnv) (file_type : String) :
    String × List String :=
  let csvStage : Sum (String × List String) (List String) :=
    if file_type = "csv" then
      match env.csv with
      | .ok rows =>
        .inl (csvText rows, ["Processing CSV file", "Successfully extracted data from CSV"])
      | .error e => .inr ["Processing CSV file", "CSV extraction failed: " ++ e]
    else .inr []
  match csvStage with
  | .inl r => r
  | .inr logs1 =>
    let pandasStage : Sum (String × List String) (List String) :=
      if env.has_pandas ∧ (file_type = "xlsx" ∨ file_type = "xls" ∨ file_type = "ods") then
        let logs2 := logs1
          ++ ["Attempting to extract data from " ++ upperStr file_type ++ " using pandas"]
        match env.pandas with
        | .ok (text, n) =>
          .inl (text, logs2 ++ ["Successfully extracted data from " ++ toString n ++ " sheets"])
        | .error e => .inr (logs2 ++ ["Pandas extraction failed: " ++ e])
      else .inr logs1
    match pandasStage with
    | .inl r => r
    | .inr logs2 =>
      let odfStage : Sum (String × List String) (List String) :=
        if env.has_odf ∧ file_type = "ods" then
          let logs3 := logs2 ++ ["Attempting to extract data from ODS using odfpy"]
          match env.odf with
          | .ok (text, n) =>
            .inl (text, logs3
              ++ ["Successfully extracted data from " ++ toString n ++ " tables using odfpy"])
          | .error e => .inr (logs3 ++ ["ODF extraction failed: " ++ e])
        else .inr logs2
      match odfStage with
      | .inl r => r
      | .inr logs3 =>
        if file_type = "xlsx" ∨ file_type = "xls" ∨ file_type = "ods" then
          ("[Could not extract data from " ++ upperStr file_type
             ++ " file. Required libraries not available or file is corrupted/protected.]",
           logs3 ++ ["All spreadsheet extraction methods failed"])
        else
          ("[Unsupported spreadsheet format or extraction failed.]",
           logs3 ++ ["All spreadsheet extraction methods failed"])

/-! ## Pipeline orchestrator (`extract_text_from_file`, file_handlers.py lines 147-252)

The sub-extractors that no claim inspects internally
(`extract_text_from_doc/_ppt/_rtf/_html/_xml/_odf/_epub/_email`) are
modelled by their call contract `(text, logs)`, with `.error` covering
any exception escaping the callee; the PDF, image, spreadsheet and TXT
branches are modelled concretely. -/

/-- The whole runtime environment for one orchestrator call. -/
structure Env where
  ocr : OcrEnv
  pil : PilEnv
  pdf : PdfLibs
  sheet : SheetEnv
  /-- Model of `mimetypes.guess_type(file_path)` content-type component. -/
  mime : Option String
  /-- Model of `open(file_path).read()` for the TXT branch. -/
  readTxt : Except String String
  /-- Model of `Image.open(file_path)` metadata for the no-OCR image branch:
  width, height, format. -/
  imageMeta : Except String (Nat × Nat × String)
  doc : Except String (String × List String)
  ppt : Except String (String × List String)
  rtf : Except String (String × List String)
  html : Except String (String × List String)
  xml : Except String (String × List String)
  odfDoc : Except String (String × List String)
  epub : Except String (String × List String)
  emailF : Except String (String × List String)

/-- Lift a `(text, logs)` sub-extractor outcome into the dispatch result
(such extractors never touch `ocr_used`; a raise carries no callee logs,
since Python never gets to `log_messages.extend`). -/
def liftSub (r : Except String (String × List String)) :
    Except (String × List String) (String × Bool × List String) :=
  match r with
  | .ok (t, l) => .ok (t, false, l)
  | .error e => .error (e, [])

/-- The body of the `try:` block of `extract_text_from_file`
(file_handlers.py lines 174-246): one branch per (lowercased) tag.
`.error (e, lgs)` = the branch raised `e` after appending `lgs`. -/
def dispatch (env : Env) (file_path : String) (ft : String) (use_ocr : Bool)
    (language : String) (pp : Option PreprocessParams) :
    Except (String × List String) (String × Bool × List String) :=
  if ft = "pdf" then
    .ok (extract_text_from_pdf env.ocr env.pil env.pdf use_ocr language pp)
  else if SUPPORTED_IMAGE_FORMATS.contains ft then
    if use_ocr then
      if ppWantsEnhance pp then
        let image := preprocess_image env.pil (OcrInput.path file_path) pp
        .ok (perform_ocr env.ocr image language false, true,
          ["Preprocessing image before OCR",
           "Performed OCR on image with language: " ++ language])
      else
        .ok (perform_ocr env.ocr (OcrInput.path file_path) language false, true,
          ["Performed OCR on image with language: " ++ language])
    else
      if env.pil.has_pil then
        match env.imageMeta with
        | .error e => .error (e, ["OCR not enabled for image file"])
        | .ok (w, h, fmt) =>
          .ok ("[Image: " ++ toString w ++ "x" ++ toString h ++ ", Format: " ++ fmt
                ++ "]\nOCR was not enabled. Enable OCR to extract text content from this image.",
               false, ["OCR not enabled for image file"])
      else .ok ("[Image file - OCR not enabled]", false, ["OCR not enabled for image file"])
  else if ft = "doc" ∨ ft = "docx" then liftSub env.doc
  else if ft = "ppt" ∨ ft = "pptx" then liftSub env.ppt
  else if ft = "xls" ∨ ft = "xlsx" ∨ ft = "csv" ∨ ft = "ods" then
    let r := extract_text_from_spreadsheet env.sheet ft
    .ok (r.1, false, r.2)
  else if ft = "txt" then
    match env.readTxt with
    | .ok t => .ok (t, false, ["Extracted text from TXT file"])
    | .error e => .error (e, [])
  else if ft = "rtf" then liftSub env.rtf
  else if ft = "html" ∨ ft = "htm" then liftSub env.html
  else if ft = "xml" then liftSub env.xml
  else if ft = "odt" ∨ ft = "odp" then liftSub env.odfDoc
  else if ft = "epub" then liftSub env.epub
  else if ft = "eml" ∨ ft = "msg" then liftSub env.emailF
  else .ok ("[Unsupported file type: " ++ ft ++ "]", false,
            ["Unsupported file type: " ++ ft])

/-- The tag actually dispatched on: the declared type when present and
non-empty (Python `if not file_type`), else the auto-detected one;
lowercased either way (file_handlers.py lines 164-170). -/
def resolvedType (env : Env) (file_path : String) (file_type : Option String) : String :=
  lowerStr (if file_type.getD "" = "" then detect_file_type env.mime file_path
            else file_type.getD "")

/-- The auto-detection log line, when detection ran
(file_handlers.py line 167). -/
def autoLogs (env : Env) (file_path : String) (file_type : Option String) : List String :=
  if file_type.getD "" = "" then
    ["Auto-detected file type: " ++ detect_file_type env.mime file_path]
  else []

/-- Model of `extract_text_from_file` (file_handlers.py lines 147-252): dispatch
wrapped in the top-level exception guard of lines 174/248-251. -/
def extract_text_from_file (env : Env) (file_path : String) (file_type : Option String)
    (use_ocr : Bool) (ocr_language : String) (pp : Option PreprocessParams) :
    String × Bool × List String :=
  match dispatch env file_path (resolvedType env file_path file_type) use_ocr ocr_language pp with
  | .ok r => (r.1, r.2.1, autoLogs env file_path file_type ++ r.2.2)
  | .error (e, lgs) =>
    ("[Error extracting text: " ++ e ++ "]", false,
     autoLogs env file_path file_type ++ lgs ++ ["Error extracting text: " ++ e])

/-! ## Concrete runtime environments for witnesses and counterexamples -/

/-- An OCR runtime with no backends (all oracles inert). -/
def noOcr : OcrEnv :=
  { has_pytesseract := false, has_easyocr := false, has_pil := false,
    tesseract := fun _ _ => Except.error "unavailable",
    tesseractHw := fun _ _ => Except.error "unavailable",
    tesseractPsm8 := fun _ _ => Except.error "unavailable",
    easyocrInitOk := fun _ => false,
    easyocrRead := fun _ _ => Except.error "unavailable" }

/-- A runtime without PIL. -/
def noPil : PilEnv := { has_pil := false, openImage := fun _ => Except.error "unavailable" }

/-- A runtime with PIL present whose `Image.open` always fails. -/
def pilNoOpen : PilEnv := { has_pil := true, openImage := fun _ => Except.error "cannot open" }

/-- A runtime with no PDF libraries. -/
def noPdfLibs : PdfLibs :=
  { has_pymupdf := false, mupdf := LibRun.ok [],
    has_pypdf2 := false, pypdf2 := LibRun.ok [],
    has_pdf2image := false, pdf2image := Except.error "unavailable",
    muTmp := fun _ => "", p2iTmp := fun _ => "" }

/-- A spreadsheet runtime with no libraries and a failing csv reader. -/
def noSheet : SheetEnv :=
  { csv := Except.error "unavailable", has_pandas := false,
    pandas := Except.error "unavailable", has_odf := false,
    odf := Except.error "unavailable" }

/-- A bare-bones orchestrator environment: nothing available, every
oracle raises. -/
def baseEnv : Env :=
  { ocr := noOcr, pil := noPil, pdf := noPdfLibs, sheet := noSheet,
    mime := none,
    readTxt := Except.error "unavailable",
    imageMeta := Except.error "unavailable",
    doc := Except.error "unavailable", ppt := Except.error "unavailable",
    rtf := Except.error "unavailable", html := Except.error "unavailable",
    xml := Except.error "unavailable", odfDoc := Except.error "unavailable",
    epub := Except.error "unavailable", emailF := Except.error "unavailable" }

/-- A no-capability environment whose TXT read raises `boom`. -/
def c1env : Env := { baseEnv with readTxt := Except.error "boom" }

/-- A PDF runtime where PyMuPDF is present and the document has exactly one
page whose text layer is empty. -/
def c2libs : PdfLibs := { noPdfLibs with has_pymupdf := true, mupdf := LibRun.ok [""] }

/-- An OCR runtime where EasyOCR is the only backend and `readtext`
raises `boom`. -/
def easyocrThrows : OcrEnv :=
  { noOcr with has_easyocr := true, easyocrInitOk := fun _ => true,
               easyocrRead := fun _ _ => Except.error "boom" }

/-- A runtime where Tesseract is the only backend and returns whitespace. -/
def tessBlank : OcrEnv :=
  { noOcr with has_pytesseract := true, tesseract := fun _ _ => Except.ok "  " }

/-- Strip leading and trailing whitespace (Python `str.strip()`). -/
def trimChars (cs : List Char) : List Char :=
  ((cs.dropWhile (fun c => c.isWhitespace)).reverse.dropWhile
    (fun c => c.isWhitespace)).reverse

/-- Parse pipe-delimited lines back into rows: split on newlines, drop the
final empty segment produced by the trailing newline, then split each line
on `'|'` and trim every cell. -/
def pipeParse (s : String) : List (List String) :=
  ((splitOnChar '\n' s.toList).dropLast).map
    (fun line => (splitOnChar '|' line).map (fun cell => String.mk (trimChars cell)))

/-- The CSV spreadsheet environment holding the rows `[[a, b], [c, d]]`. -/
def c8sheet : SheetEnv := { noSheet with csv := Except.ok [["a", "b"], ["c", "d"]] }

/-- A params struct with every field off (`enhance = false`). -/
def allFalseParams : PreprocessParams :=
  { enhance := false, grayscale := false, contrast := 0,
    threshold := none, noise_reduction := false }

/-- A one-pixel mid-gray RGB image. -/
def img100 : OcrInput := OcrInput.image (PImage.rgb [[(100, 100, 100)]])

/-- The preprocessing parameters named by the spec property:
`{enhance: true, grayscale: true, contrast: 2.0, threshold: 100,
noise_reduction: true}`. -/
def c5params : PreprocessParams :=
  { enhance := true, grayscale := true, contrast := 2,
    threshold := some 100, noise_reduction := true }

/-- The grayscale plane produced by steps 0-1 of the enhance chain. -/
def c5gray (img : PImage) : List (List Nat) := grayscaleOf (convertRGB img)

/-- The plane after the multiplicative contrast step. -/
def c5contrasted (img : PImage) : List (List Nat) :=
  (c5gray img).map (fun r => r.map
    (blendPx c5params.contrast (meanL (PImage.gray (c5gray img)))))

/-- The plane after hard thresholding at 100. -/
def c5thresholded (img : PImage) : List (List Nat) :=
  (c5contrasted img).map (fun r => r.map (thresholdPx 100))

/-! ## Helper lemmas: the OCR flag under `use_ocr = False` -/

theorem foldPages_flag (proc : Nat → String → String × Bool × List String)
    (h : ∀ k pt, (proc k pt).2.1 = false) :
    ∀ (pages : List String) (i : Nat), (foldPages proc pages i).2.1 = false := by
  intro pages
  induction pages with
  | nil => intro i; rfl
  | cons pt rest ih => intro i; simp [foldPages, h, ih]

theorem muPageProc_flag (ocr : OcrEnv) (pil : PilEnv) (libs : PdfLibs)
    (lang : String) (pp : Option PreprocessParams) (i : Nat) (pt : String) :
    (muPageProc ocr pil libs false lang pp i pt).2.1 = false := by
  simp [muPageProc]

theorem muStage_flag (ocr : OcrEnv) (pil : PilEnv) (libs : PdfLibs)
    (lang : String) (pp : Option PreprocessParams) :
    (muStage ocr pil libs false lang pp).elim (fun r => r.2.1) (fun c => c.2.1) = false := by
  have hf := foldPages_flag (muPageProc ocr pil libs false lang pp)
    (muPageProc_flag ocr pil libs lang pp)
  unfold muStage
  split
  · rfl
  · cases libs.mupdf with
    | ok pages =>
      dsimp only
      split <;> simp [hf]
    | raiseAfter pages e => simp [hf]

theorem pypdf2Stage_flag (libs : PdfLibs) (carry : String × Bool × List String) :
    (pypdf2Stage libs carry).elim (fun r => r.2.1) (fun c => c.2.1) = carry.2.1 := by
  unfold pypdf2Stage
  split
  · cases libs.pypdf2 with
    | ok pages => dsimp only; split <;> rfl
    | raiseAfter pages e => rfl
  · rfl

theorem fullOcrStage_noop (ocr : OcrEnv) (pil : PilEnv) (libs : PdfLibs)
    (lang : String) (pp : Option PreprocessParams) (carry : String × Bool × List String) :
    fullOcrStage ocr pil libs false lang pp carry = carry := by
  simp [fullOcrStage]

theorem finalizePdf_flag (carry : String × Bool × List String) :
    (finalizePdf carry).2.1 = carry.2.1 := by
  unfold finalizePdf
  split <;> rfl

theorem pdf_flag (ocr : OcrEnv) (pil : PilEnv) (libs : PdfLibs)
    (lang : String) (pp : Option PreprocessParams) :
    (extract_text_from_pdf ocr pil libs false lang pp).2.1 = false := by
  unfold extract_text_from_pdf
  have h1 := muStage_flag ocr pil libs lang pp
  split
  · next r heq => rw [heq] at h1; exact h1
  · next c1 heq =>
    rw [heq] at h1
    have h2 := pypdf2Stage_flag libs c1
    split
    · next r heq2 => rw [heq2] at h2; exact h2.trans h1
    · next c2 heq2 =>
      rw [heq2] at h2
      rw [fullOcrStage_noop, finalizePdf_flag]
      exact h2.trans h1

theorem liftSub_flag (x : Except String (String × List String))
    (r : String × Bool × List String) (h : liftSub x = Except.ok r) : r.2.1 = false := by
  unfold liftSub at h
  cases x with
  | ok p => cases h; rfl
  | error e => cases h

theorem dispatch_flag (env : Env) (path ft lang : String) (pp : Option PreprocessParams)
    (r : String × Bool × List String)
    (h : dispatch env path ft false lang pp = Except.ok r) : r.2.1 = false := by
  unfold dispatch at h
  rw [if_neg (by decide : ¬ (false = true))] at h
  generalize hP : extract_text_from_pdf env.ocr env.pil env.pdf false lang pp = P at h
  generalize extract_text_from_spreadsheet env.sheet ft = S at h
  by_cases h1 : ft = "pdf"
  · rw [if_pos h1] at h; cases h; rw [← hP]
    exact pdf_flag env.ocr env.pil env.pdf lang pp
  rw [if_neg h1] at h
  by_cases h2 : SUPPORTED_IMAGE_FORMATS.contains ft = true
  · rw [if_pos h2] at h
    by_cases h2a : env.pil.has_pil = true
    · rw [if_pos h2a] at h
      cases hm : env.imageMeta with
      | ok w => rw [hm] at h; obtain ⟨w1, w2, w3⟩ := w; cases h; rfl
      | error e => rw [hm] at h; cases h
    · rw [if_neg h2a] at h; cases h; rfl
  rw [if_neg h2] at h
  by_cases h3 : ft = "doc" ∨ ft = "docx"
  · rw [if_pos h3] at h; exact liftSub_flag _ _ h
  rw [if_neg h3] at h
  by_cases h4 : ft = "ppt" ∨ ft = "pptx"
  · rw [if_pos h4] at h; exact liftSub_flag _ _ h
  rw [if_neg h4] at h
  by_cases h5 : ft = "xls" ∨ ft = "xlsx" ∨ ft = "csv" ∨ ft = "ods"
  · rw [if_pos h5] at h; cases h; rfl
  rw [if_neg h5] at h
  by_cases h6 : ft = "txt"
  · rw [if_pos h6] at h
    cases ht : env.readTxt with
    | ok t => rw [ht] at h; cases h; rfl
    | error e => rw [ht] at h; cases h
  rw [if_neg h6] at h
  by_cases h7 : ft = "rtf"
  · rw [if_pos h7] at h; exact liftSub_flag _ _ h
  rw [if_neg h7] at h
  by_cases h8 : ft = "html" ∨ ft = "htm"
  · rw [if_pos h8] at h; exact liftSub_flag _ _ h
  rw [if_neg h8] at h
  by_cases h9 : ft = "xml"
  · rw [if_pos h9] at h; exact liftSub_flag _ _ h
  rw [if_neg h9] at h
  by_cases h10 : ft = "odt" ∨ ft = "odp"
  · rw [if_pos h10] at h; exact liftSub_flag _ _ h
  rw [if_neg h10] at h
  by_cases h11 : ft = "epub"
  · rw [if_pos h11] at h; exact liftSub_flag _ _ h
  rw [if_neg h11] at h
  by_cases h12 : ft = "eml" ∨ ft = "msg"
  · rw [if_pos h12] at h; exact liftSub_flag _ _ h
  rw [if_neg h12] at h
  cases h; rfl

/-! ## Claim C9 -/

/-- C9: for every call to `extract_text_from_file` with `use_ocr = False`,
the returned `ocr_used` flag is `False`, whatever the file type and whatever
extraction strategies succeed or fail — the flag can only become `True` on
branches guarded by `use_ocr` being `True`. -/
theorem claim9_no_ocr_flag (env : Env) (file_path : String) (file_type : Option String)
    (lang : String) (pp : Option PreprocessParams) :
    (extract_text_from_file env file_path file_type false lang pp).2.1 = false := by
  unfold extract_text_from_file
  cases hd : dispatch env file_path (resolvedType env file_path file_type) false lang pp with
  | ok r => exact dispatch_flag env file_path _ lang pp r hd
  | error p => rfl

/-! ## Claim C1 -/

/-- C1: `extract_text_from_file` is total — in this embedding it returns a
3-tuple by construction for every input — and whenever the dispatched
extractor raises (the dispatch body evaluates to `.error (e, lgs)`), the
top-level guard converts the exception into the bracketed
`[Error extracting text: ...]` marker text, keeps `ocr_used` at `False`,
and appends the error to the log trail instead of propagating. -/
theorem claim1_catch (env : Env) (file_path : String) (file_type : Option String)
    (use_ocr : Bool) (lang : String) (pp : Option PreprocessParams) (e : String)
    (lgs : List String)
    (h : dispatch env file_path (resolvedType env file_path file_type) use_ocr lang pp
          = Except.error (e, lgs)) :
    extract_text_from_file env file_path file_type use_ocr lang pp =
      ("[Error extracting text: " ++ e ++ "]", false,
       autoLogs env file_path file_type ++ lgs ++ ["Error extracting text: " ++ e]) := by
  unfold extract_text_from_file
  rw [h]

/-- Witness for C1: with a TXT reader that raises `boom`, the orchestrator
returns the error marker, not an exception. -/
theorem claim1_witness :
    extract_text_from_file c1env "f.txt" (some "txt") false "eng" none =
      ("[Error extracting text: " ++ "boom" ++ "]", false,
       autoLogs c1env "f.txt" (some "txt") ++ [] ++ ["Error extracting text: " ++ "boom"]) :=
  claim1_catch c1env "f.txt" (some "txt") false "eng" none "boom" [] rfl

/-! ## Claim C2 -/

/-- C2 counterexample: for a PDF with zero extractable text and
`use_ocr = False`, when PyMuPDF is available the result is the page-marker
text `"\n--- Page 1 ---\n"` + `"\n"` (non-whitespace, so the code takes the
success return of file_handlers.py line 312), not the fixed placeholder the
claim requires for every library configuration. -/
theorem claim2_counterexample :
    (extract_text_from_pdf noOcr noPil c2libs false "eng" none).1 = "\n--- Page 1 ---\n\n" ∧
    (extract_text_from_pdf noOcr noPil c2libs false "eng" none).2.1 = false ∧
    (extract_text_from_pdf noOcr noPil c2libs false "eng" none).1 ≠
      "[No text could be extracted from this PDF. It may be scanned, image-based, or protected.]" :=
  ⟨by decide, by decide, by decide⟩

/-- C2 (amended): when `use_ocr` is `False` and no PDF library is available,
`extract_text_from_pdf` returns exactly the scanned/protected placeholder
with `ocr_used = False`; with a library available that iterates pages
successfully the result instead contains per-page markers even when every
page is textless (see the counterexample). -/
theorem claim2_amended (ocr : OcrEnv) (pil : PilEnv) (libs : PdfLibs) (lang : String)
    (pp : Option PreprocessParams) (h1 : libs.has_pymupdf = false)
    (h2 : libs.has_pypdf2 = false) :
    extract_text_from_pdf ocr pil libs false lang pp =
      ("[No text could be extracted from this PDF. It may be scanned, image-based, or protected.]",
       false,
       ["PyMuPDF not available, trying alternative methods",
        "Could not extract any text from the PDF"]) := by
  unfold extract_text_from_pdf muStage
  rw [if_pos (by simp [h1])]
  dsimp only
  unfold pypdf2Stage
  rw [if_neg (by simp [h2])]
  dsimp only
  rw [fullOcrStage_noop]
  unfold finalizePdf
  rw [if_pos (by decide)]
  rfl

/-- Witness for C2: the no-libraries environment hits the placeholder. -/
theorem claim2_witness :
    extract_text_from_pdf noOcr noPil noPdfLibs false "eng" none =
      ("[No text could be extracted from this PDF. It may be scanned, image-based, or protected.]",
       false,
       ["PyMuPDF not available, trying alternative methods",
        "Could not extract any text from the PDF"]) :=
  claim2_amended noOcr noPil noPdfLibs "eng" none rfl rfl

/-! ## Claim C3 -/

/-- C3: `detect_file_type` returns the (lowercased, dot-stripped) extension
itself whenever it appears in the supported-format table; with an
unrecognized extension and no MIME result it returns `unknown`; and in every
case the result is either the extension or one of the fixed tags
image/text/pdf/doc/ppt/xls/unknown — the function (being total in this
embedding, with the `mimetypes` result passed as an oracle) never raises. -/
theorem claim3_detect_file_type (mime : Option String) (path : String) :
    (extSupported (normExt path) = true → detect_file_type mime path = normExt path) ∧
    (extSupported (normExt path) = false → mime = none →
      detect_file_type mime path = "unknown") ∧
    (detect_file_type mime path = normExt path ∨
      detect_file_type mime path ∈ ["image", "text", "pdf", "doc", "ppt", "xls", "unknown"]) := by
  refine ⟨?_, ?_, ?_⟩
  · intro hs
    unfold detect_file_type
    rw [if_pos hs]
  · intro hs hm
    subst hm
    unfold detect_file_type
    rw [if_neg (by simp [hs])]
  · unfold detect_file_type
    by_cases hs : extSupported (normExt path) = true
    · rw [if_pos hs]; left; rfl
    · rw [if_neg hs]
      right
      cases mime with
      | none => simp
      | some ct => dsimp only; split_ifs <;> simp

/-- Witness for C3: a supported extension maps to itself; an unsupported
one with no MIME result maps to `unknown`. -/
theorem claim3_witness :
    detect_file_type none "a.pdf" = normExt "a.pdf" ∧
    detect_file_type none "a.xyz" = "unknown" :=
  ⟨(claim3_detect_file_type none "a.pdf").1 (by decide),
   (claim3_detect_file_type none "a.xyz").2.1 (by decide) rfl⟩

/-! ## Claim C7 -/

/-- Model of `perform_ocr` with zero available backends returns the fixed
"OCR unavailable" placeholder (ocr_utils.py lines 126-128): shared by the
OCR-adapter and orchestrator claims. -/
theorem perform_ocr_unavailable (env : OcrEnv) (img : OcrInput) (lang : String) (hw : Bool)
    (h1 : env.has_pytesseract = false) (h2 : env.has_easyocr = false) :
    perform_ocr env img lang hw =
      "[OCR is not available. No text could be extracted from this image.]" := by
  unfold perform_ocr
  rw [if_pos (by simp [is_ocr_available, h1, h2])]

/-- No tag in the image-format table is `"pdf"`, so the image branch of
the dispatch is reached. -/
theorem image_format_ne_pdf : ∀ s ∈ SUPPORTED_IMAGE_FORMATS, s ≠ "pdf" := by decide

/-- C7: for every image-format input to `extract_text_from_file` with
`use_ocr = True` and no OCR backend available, the returned text is the
fixed "OCR is not available" placeholder and `ocr_used` is `True` (OCR was
attempted, not skipped). -/
theorem claim7_image_ocr_unavailable (env : Env) (path : String) (fto : Option String)
    (lang : String) (pp : Option PreprocessParams)
    (himg : resolvedType env path fto ∈ SUPPORTED_IMAGE_FORMATS)
    (h1 : env.ocr.has_pytesseract = false) (h2 : env.ocr.has_easyocr = false) :
    (extract_text_from_file env path fto true lang pp).1 =
      "[OCR is not available. No text could be extracted from this image.]" ∧
    (extract_text_from_file env path fto true lang pp).2.1 = true := by
  have hne : resolvedType env path fto ≠ "pdf" := image_format_ne_pdf _ himg
  have hcon : SUPPORTED_IMAGE_FORMATS.contains (resolvedType env path fto) = true :=
    List.elem_eq_true_of_mem himg
  by_cases hpp : ppWantsEnhance pp = true
  · have hd : dispatch env path (resolvedType env path fto) true lang pp =
        Except.ok (perform_ocr env.ocr
            (preprocess_image env.pil (OcrInput.path path) pp) lang false, true,
          ["Preprocessing image before OCR",
           "Performed OCR on image with language: " ++ lang]) := by
      unfold dispatch
      rw [if_neg hne, if_pos hcon, if_pos rfl, if_pos hpp]
    unfold extract_text_from_file
    rw [hd]
    exact ⟨perform_ocr_unavailable _ _ _ _ h1 h2, rfl⟩
  · have hd : dispatch env path (resolvedType env path fto) true lang pp =
        Except.ok (perform_ocr env.ocr (OcrInput.path path) lang false, true,
          ["Performed OCR on image with language: " ++ lang]) := by
      unfold dispatch
      rw [if_neg hne, if_pos hcon, if_pos rfl, if_neg hpp]
    unfold extract_text_from_file
    rw [hd]
    exact ⟨perform_ocr_unavailable _ _ _ _ h1 h2, rfl⟩

/-- Witness for C7: a declared `png` in the no-backend runtime. -/
theorem claim7_witness :
    (extract_text_from_file baseEnv "x.png" (some "png") true "eng" none).1 =
      "[OCR is not available. No text could be extracted from this image.]" ∧
    (extract_text_from_file baseEnv "x.png" (some "png") true "eng" none).2.1 = true :=
  claim7_image_ocr_unavailable baseEnv "x.png" (some "png") "eng" none (by decide) rfl rfl

/-! ## Claim C6 -/

/-- The Tesseract block only early-returns text that is non-whitespace
(ocr_utils.py lines 154-156 and 167-168). -/
theorem tesseractStage_inl (env : OcrEnv) (img : OcrInput) (lang : String) (hw : Bool)
    (t : String) (h : tesseractStage env img lang hw = Sum.inl t) : isWS t = false := by
  unfold tesseractStage at h
  split at h
  · cases h
  · split at h
    · cases h
    · next t1 =>
      split at h
      · next hws => cases h; simpa using hws
      · split at h
        · split at h
          · cases h
          · next t2 _ =>
            split at h
            · next hws2 => cases h; simpa using hws2
            · cases h
        · cases h

/-- The EasyOCR block only early-returns the fixed invalid-format marker
(ocr_utils.py line 199). -/
theorem easyocrStage_inl (env : OcrEnv) (img : OcrInput) (lang : String)
    (c m : String) (h : easyocrStage env img lang c = Sum.inl m) :
    m = "[Could not process image for OCR: Invalid image format]" := by
  unfold easyocrStage at h
  split at h
  · cases h
  · split at h
    · cases h
    · cases img with
      | path p =>
        dsimp only at h
        split at h <;> cases h
      | image i =>
        dsimp only at h
        split at h
        · split at h <;> cases h
        · cases h; rfl

/-- Model of `perform_ocr` never returns an empty or whitespace-only string:
every return point is either a guarded non-whitespace text or a fixed
non-whitespace marker. -/
theorem perform_ocr_nonWS (env : OcrEnv) (img : OcrInput) (lang : String) (hw : Bool) :
    isWS (perform_ocr env img lang hw) = false := by
  unfold perform_ocr
  split
  · decide
  · split
    · next t ht => exact tesseractStage_inl env img lang hw t ht
    · next c hc =>
      split
      · next m hm => rw [easyocrStage_inl env img lang c m hm]; decide
      · next t ht =>
        split
        · next hws => simpa using hws
        · decide

/-- When backends exist but the Tesseract block fell through and the
EasyOCR block left a whitespace-only `ocr_text`, the final line returns the
fixed "no text detected" placeholder (ocr_utils.py line 208). -/
theorem perform_ocr_no_text (env : OcrEnv) (img : OcrInput) (lang : String) (hw : Bool)
    (c t : String) (h1 : is_ocr_available env = true)
    (h2 : tesseractStage env img lang hw = Sum.inr c)
    (h3 : easyocrStage env img lang c = Sum.inr t) (h4 : isWS t = true) :
    perform_ocr env img lang hw = "[No text was detected in this image.]" := by
  unfold perform_ocr
  rw [if_neg (by simp [h1]), h2]
  dsimp only
  rw [h3]
  dsimp only
  rw [if_neg (by simp [h4])]

/-- C6 counterexample: with EasyOCR as the only backend and its `readtext`
raising `boom`, `perform_ocr` returns the bracketed OCR-processing-failure
marker (ocr_utils.py lines 203-206), not the `"[No text was detected in
this image.]"` placeholder the claim requires whenever every available
backend throws. -/
theorem claim6_counterexample :
    perform_ocr easyocrThrows (OcrInput.path "x.png") "eng" false
      = "[OCR processing failed: boom]" ∧
    ("[OCR processing failed: boom]" : String) ≠ "[No text was detected in this image.]" :=
  ⟨by decide, by decide⟩

/-- C6 (amended): `perform_ocr` never returns an empty or whitespace-only
final result and no backend exception propagates (the function is total
over the oracle outcomes); with zero backends it returns the fixed
"OCR unavailable" placeholder; and when the backends fall through with
only whitespace accumulated — every backend absent, yielding empty text,
or the primary throwing, provided the secondary did not itself throw with
nothing accumulated — it returns the fixed "no text detected" placeholder
(when the secondary throws with nothing accumulated the result is instead
the bracketed "[OCR processing failed: ...]" marker, as the counterexample
shows). -/
theorem claim6_amended :
    (∀ (env : OcrEnv) (img : OcrInput) (lang : String) (hw : Bool),
      isWS (perform_ocr env img lang hw) = false) ∧
    (∀ (env : OcrEnv) (img : OcrInput) (lang : String) (hw : Bool),
      env.has_pytesseract = false → env.has_easyocr = false →
      perform_ocr env img lang hw =
        "[OCR is not available. No text could be extracted from this image.]") ∧
    (∀ (env : OcrEnv) (img : OcrInput) (lang : String) (hw : Bool) (c t : String),
      is_ocr_available env = true →
      tesseractStage env img lang hw = Sum.inr c →
      easyocrStage env img lang c = Sum.inr t → isWS t = true →
      perform_ocr env img lang hw = "[No text was detected in this image.]") :=
  ⟨perform_ocr_nonWS,
   fun env img lang hw h1 h2 => perform_ocr_unavailable env img lang hw h1 h2,
   fun env img lang hw c t h1 h2 h3 h4 => perform_ocr_no_text env img lang hw c t h1 h2 h3 h4⟩

/-- Witness for C6 (amended): a Tesseract-only runtime whose backend
returns whitespace ends at the "no text detected" placeholder; the
no-backend runtime ends at the "OCR unavailable" placeholder; and both
are non-whitespace results. -/
theorem claim6_witness :
    isWS (perform_ocr noOcr (OcrInput.path "x.png") "eng" false) = false ∧
    perform_ocr noOcr (OcrInput.path "x.png") "eng" false =
      "[OCR is not available. No text could be extracted from this image.]" ∧
    perform_ocr tessBlank (OcrInput.path "x.png") "eng" false =
      "[No text was detected in this image.]" :=
  ⟨claim6_amended.1 noOcr (OcrInput.path "x.png") "eng" false,
   claim6_amended.2.1 noOcr (OcrInput.path "x.png") "eng" false rfl rfl,
   claim6_amended.2.2 tessBlank (OcrInput.path "x.png") "eng" false
     "  " "  " rfl (by decide) (by decide) (by decide)⟩

/-! ## Claim C8 -/

/-- C8: for a CSV whose parsed rows are `[[a, b], [c, d]]`, the extractor
produces the pipe-delimited lines `a | b` and `c | d` (one line per row,
cells joined by `" | "`), and splitting each output line on the pipe and
trimming reproduces the original two rows. -/
theorem claim8_csv_roundtrip :
    extract_text_from_spreadsheet c8sheet "csv" =
      ("a | b\nc | d\n", ["Processing CSV file", "Successfully extracted data from CSV"]) ∧
    pipeParse (extract_text_from_spreadsheet c8sheet "csv").1 = [["a", "b"], ["c", "d"]] :=
  ⟨by decide, by decide⟩

/-! ## Claim C10 -/

/-- C10: in the enhance branch, binarization fires only when the threshold
value is Python-truthy: `threshold = 0` (inside the declared 0..255 range)
behaves exactly like `threshold = None` — binarization is silently
disabled — rather than thresholding at cutoff 0; concretely, a grayscale
pixel of 7 survives unchanged where cutoff-0 thresholding would map it
to 255. -/
theorem claim10_threshold_zero :
    (∀ (env : PilEnv) (inp : OcrInput) (q : PreprocessParams),
      preprocess_image env inp (some { q with threshold := some 0 }) =
        preprocess_image env inp (some { q with threshold := none })) ∧
    preprocess_image pilNoOpen (OcrInput.image (PImage.gray [[7]]))
        (some { enhance := true, grayscale := true, contrast := 1,
                threshold := some 0, noise_reduction := false }) =
      OcrInput.image (PImage.gray [[7]]) ∧
    thresholdPx 0 7 = 255 := by
  refine ⟨?_, by decide, by decide⟩
  intro env inp q
  have key : ∀ img0 : PImage,
      enhanceChain { q with threshold := some 0 } img0 =
        enhanceChain { q with threshold := none } img0 := by
    intro img0
    simp [enhanceChain, truthyThresh]
  unfold preprocess_image
  split
  · rfl
  · cases inp with
    | image im =>
      dsimp only [Option.getD]
      rw [key im]
    | path p =>
      dsimp only [Option.getD]
      cases env.openImage p with
      | ok im =>
        dsimp only
        rw [key im]
      | error e => rfl

/-! ## Claim C4 -/

/-- C4 counterexample: `preprocess_image` with `params = None` substitutes
the defaults and so DOES preprocess (the 100-valued pixel is grayscaled,
contrast-adjusted and binarized to 0), contradicting "params = None means
no preprocessing is applied"; and an all-false struct returns the image
unchanged (the enhance branch is skipped), contradicting "an all-false
struct still runs the enhance branch with defaults". -/
theorem claim4_counterexample :
    preprocess_image pilNoOpen img100 none = OcrInput.image (PImage.gray [[0]]) ∧
    preprocess_image pilNoOpen img100 none ≠ img100 ∧
    preprocess_image pilNoOpen img100 (some allFalseParams) = img100 :=
  ⟨by decide, by decide, by decide⟩

/-- C4 (amended): `params = None` in `preprocess_image` selects the default
parameter set (so the enhance branch runs with defaults), while a struct
with `enhance = false` skips the enhance branch and returns the image
unchanged; the orchestrator invokes `preprocess_image` only when
`preprocess_params` is present with a true `enhance` field — with it absent
or false, OCR runs directly on the raw file path, so at the pipeline level
an absent struct means no preprocessing. -/
theorem claim4_amended :
    (∀ (env : PilEnv) (inp : OcrInput),
      preprocess_image env inp none = preprocess_image env inp (some defaultParams)) ∧
    (∀ (env : PilEnv) (img : PImage) (q : PreprocessParams), q.enhance = false →
      preprocess_image env (OcrInput.image img) (some q) = OcrInput.image img) ∧
    (∀ (env : Env) (path : String) (fto : Option String) (lang : String)
        (pp : Option PreprocessParams),
      resolvedType env path fto ∈ SUPPORTED_IMAGE_FORMATS → ppWantsEnhance pp = false →
      (extract_text_from_file env path fto true lang pp).1 =
        perform_ocr env.ocr (OcrInput.path path) lang false) := by
  refine ⟨fun env inp => rfl, ?_, ?_⟩
  · intro env img q hq
    unfold preprocess_image
    split
    · rfl
    · simp [hq]
  · intro env path fto lang pp himg hpp
    have hne : resolvedType env path fto ≠ "pdf" := image_format_ne_pdf _ himg
    have hcon : SUPPORTED_IMAGE_FORMATS.contains (resolvedType env path fto) = true :=
      List.elem_eq_true_of_mem himg
    have hd : dispatch env path (resolvedType env path fto) true lang pp =
        Except.ok (perform_ocr env.ocr (OcrInput.path path) lang false, true,
          ["Performed OCR on image with language: " ++ lang]) := by
      unfold dispatch
      rw [if_neg hne, if_pos hcon, if_pos rfl, if_neg (by simp [hpp])]
    unfold extract_text_from_file
    rw [hd]

/-- Witness for C4 (amended): the defaults substitution, the skip on an
all-false struct, and the raw-path OCR call in the orchestrator, each at a
concrete input. -/
theorem claim4_witness :
    preprocess_image pilNoOpen img100 none = preprocess_image pilNoOpen img100 (some defaultParams) ∧
    preprocess_image pilNoOpen (OcrInput.image (PImage.gray [[5]])) (some allFalseParams) =
      OcrInput.image (PImage.gray [[5]]) ∧
    (extract_text_from_file baseEnv "x.png" (some "png") true "eng" none).1 =
      perform_ocr baseEnv.ocr (OcrInput.path "x.png") "eng" false :=
  ⟨claim4_amended.1 pilNoOpen img100,
   claim4_amended.2.1 pilNoOpen (PImage.gray [[5]]) allFalseParams rfl,
   claim4_amended.2.2 baseEnv "x.png" (some "png") "eng" none (by decide) rfl⟩

/-! ## Claim C5 -/

theorem mem_insertSorted {x a : Nat} :
    ∀ {l : List Nat}, x ∈ insertSorted a l → x = a ∨ x ∈ l := by
  intro l
  induction l with
  | nil =>
    intro h
    rw [insertSorted] at h
    rcases List.mem_singleton.mp h with rfl
    exact Or.inl rfl
  | cons y ys ih =>
    intro h
    rw [insertSorted] at h
    split at h
    · rcases List.mem_cons.mp h with rfl | h'
      · exact Or.inl rfl
      · exact Or.inr h'
    · rcases List.mem_cons.mp h with rfl | h'
      · exact Or.inr (List.mem_cons_self _ _)
      · rcases ih h' with rfl | h''
        · exact Or.inl rfl
        · exact Or.inr (List.mem_cons_of_mem _ h'')

theorem mem_isort {x : Nat} : ∀ {l : List Nat}, x ∈ isort l → x ∈ l := by
  intro l
  induction l with
  | nil => intro h; cases h
  | cons y ys ih =>
    intro h
    rw [isort] at h
    rcases mem_insertSorted h with rfl | h'
    · exact List.mem_cons_self _ _
    · exact List.mem_cons_of_mem _ (ih h')

theorem length_insertSorted (a : Nat) :
    ∀ (l : List Nat), (insertSorted a l).length = l.length + 1 := by
  intro l
  induction l with
  | nil => rfl
  | cons y ys ih =>
    rw [insertSorted]
    split
    · rfl
    · simp [ih]

theorem length_isort : ∀ (l : List Nat), (isort l).length = l.length := by
  intro l
  induction l with
  | nil => rfl
  | cons y ys ih => rw [isort, length_insertSorted, ih]; rfl

/-- The rank-4 filter value of a list with more than four entries is one of
its entries. -/
theorem median9_mem (l : List Nat) (h : 4 < l.length) : median9 l ∈ l := by
  unfold median9
  have hlen : 4 < (isort l).length := by rw [length_isort]; exact h
  rw [List.getD_eq_getElem _ _ hlen]
  exact mem_isort (List.getElem_mem hlen)

/-- A clamped pixel lookup yields either 0 (outside an empty image/row) or
a pixel of the image. -/
theorem grayGet_closed (P : Nat → Prop) (h0 : P 0) (px : List (List Nat))
    (hpx : ∀ row ∈ px, ∀ v ∈ row, P v) (i j : Int) : P (grayGet px i j) := by
  unfold grayGet
  by_cases hi : clampIdx px.length i < px.length
  · rw [List.getD_eq_getElem px [] hi]
    have hrow : px[clampIdx px.length i] ∈ px := List.getElem_mem hi
    by_cases hj : clampIdx (px[clampIdx px.length i]).length j <
        (px[clampIdx px.length i]).length
    · rw [List.getD_eq_getElem _ 0 hj]
      exact hpx _ hrow _ (List.getElem_mem hj)
    · rw [List.getD_eq_default _ 0 (Nat.le_of_not_lt hj)]
      exact h0
  · rw [List.getD_eq_default px [] (Nat.le_of_not_lt hi)]
    rw [List.getD_eq_default _ 0 (Nat.zero_le _)]
    exact h0

theorem nbhd9_closed (P : Nat → Prop) (h0 : P 0) (px : List (List Nat))
    (hpx : ∀ row ∈ px, ∀ v ∈ row, P v) (i j : Nat) : ∀ v ∈ nbhd9 px i j, P v := by
  have hg : ∀ (a b : Int), P (grayGet px a b) := fun a b => grayGet_closed P h0 px hpx a b
  intro v hv
  simp only [nbhd9, List.mem_cons, List.not_mem_nil, or_false] at hv
  rcases hv with rfl | rfl | rfl | rfl | rfl | rfl | rfl | rfl | rfl <;> exact hg _ _

theorem medianRow_closed (P : Nat → Prop) (h0 : P 0) (px : List (List Nat))
    (hpx : ∀ row ∈ px, ∀ v ∈ row, P v) (i : Nat) :
    ∀ (row : List Nat) (j : Nat), ∀ v ∈ medianRow px i row j, P v := by
  intro row
  induction row with
  | nil => intro j v hv; cases hv
  | cons a rest ih =>
    intro j v hv
    rw [medianRow] at hv
    rcases List.mem_cons.mp hv with rfl | hv'
    · have hlen : (nbhd9 px i j).length = 9 := rfl
      exact nbhd9_closed P h0 px hpx i j _
        (median9_mem (nbhd9 px i j) (by rw [hlen]; decide))
    · exact ih (j + 1) v hv'

theorem medianRows_closed (P : Nat → Prop) (h0 : P 0) (px : List (List Nat))
    (hpx : ∀ row ∈ px, ∀ v ∈ row, P v) :
    ∀ (rows : List (List Nat)) (i : Nat), ∀ row ∈ medianRows px rows i, ∀ v ∈ row, P v := by
  intro rows
  induction rows with
  | nil => intro i row hrow; cases hrow
  | cons r rest ih =>
    intro i row hrow
    rw [medianRows] at hrow
    rcases List.mem_cons.mp hrow with rfl | h'
    · exact fun v hv => medianRow_closed P h0 px hpx i r 0 v hv
    · exact ih (i + 1) row h'

/-- The median filter preserves any pixel property that holds for 0 and for
every input pixel (in particular membership in `{0, 255}`). -/
theorem medianFilterGray_closed (P : Nat → Prop) (h0 : P 0) (px : List (List Nat))
    (hpx : ∀ row ∈ px, ∀ v ∈ row, P v) :
    ∀ row ∈ medianFilterGray px, ∀ v ∈ row, P v :=
  fun row hrow => medianRows_closed P h0 px hpx px 0 row hrow

/-- Each thresholded pixel is 0 or 255 (image_processing.py line 103). -/
theorem thresholdPx_bimodal (t v : Nat) : thresholdPx t v = 0 ∨ thresholdPx t v = 255 := by
  unfold thresholdPx
  split
  · exact Or.inr rfl
  · exact Or.inl rfl

theorem mapped_threshold_bimodal (t : Nat) (g : List (List Nat)) :
    ∀ row ∈ g.map (fun r => r.map (thresholdPx t)), ∀ v ∈ row, v = 0 ∨ v = 255 := by
  intro row hrow v hv
  rw [List.mem_map] at hrow
  obtain ⟨r, _, rfl⟩ := hrow
  rw [List.mem_map] at hv
  obtain ⟨w, _, rfl⟩ := hv
  exact thresholdPx_bimodal t w

/-- C5: with `{enhance: true, grayscale: true, contrast: 2.0, threshold:
100, noise_reduction: true}` the transforms apply in the fixed order
color-normalize → grayscale → contrast → threshold → median denoise, so
for every input image the output is a grayscale image whose every pixel is
0 or 255 (strictly bimodal): thresholding follows grayscale conversion and
the median filter preserves the two-value set. -/
theorem claim5_bimodal (env : PilEnv) (img : PImage) (hpil : env.has_pil = true) :
    ∃ px, preprocess_image env (OcrInput.image img) (some c5params) =
        OcrInput.image (PImage.gray px) ∧ ∀ row ∈ px, ∀ v ∈ row, v = 0 ∨ v = 255 := by
  have hpre : preprocess_image env (OcrInput.image img) (some c5params) =
      OcrInput.image (enhanceChain c5params img) := by
    unfold preprocess_image
    rw [if_neg (by simp [hpil])]
    rfl
  have hchain : enhanceChain c5params img =
      PImage.gray (medianFilterGray (c5thresholded img)) := rfl
  refine ⟨medianFilterGray (c5thresholded img), by rw [hpre, hchain], ?_⟩
  exact medianFilterGray_closed (fun v => v = 0 ∨ v = 255) (Or.inl rfl)
    (c5thresholded img) (mapped_threshold_bimodal 100 (c5contrasted img))

/-- Witness for C5: the bimodality at a concrete 2×2 RGB image. -/
theorem claim5_witness :
    ∃ px, preprocess_image pilNoOpen
        (OcrInput.image (PImage.rgb [[(10, 200, 30), (255, 255, 255)], [(0, 0, 0), (120, 130, 140)]]))
        (some c5params) = OcrInput.image (PImage.gray px) ∧
      ∀ row ∈ px, ∀ v ∈ row, v = 0 ∨ v = 255 :=
  claim5_bimodal pilNoOpen
    (PImage.rgb [[(10, 200, 30), (255, 255, 255)], [(0, 0, 0), (120, 130, 140)]]) rfl

end UTE
